import Mathlib

/-!
Shallow embedding of the real-time subscription client
`TokenBowlWebSocket` from `src/token_bowl_chat/websocket_client_v3.py`,
together with theorems settling the specification claims about it.

The external transport (Centrifugo) and HTTP stack (httpx) are modelled
as environment parameters: each network interaction is represented by an
outcome value supplied to the embedded operation, and exceptions raised
by the environment are represented by error variants of those outcomes.
-/

/-- Connection credentials returned by the bootstrap endpoint
`GET base/centrifugo/connection-token`: the stream URL, the connection
token and the ordered list of channel names.  Mirrors the JSON body
stored in `self._connection_info`. -/
structure Credentials where
  url : String
  token : String
  channels : List String
deriving Repr, DecidableEq

/-- The error taxonomy visible to callers of the client.
`authenticationError` and `networkError` are the two classes the
websocket module imports; `serverError` belongs to the request/response
taxonomy of the request-response client and `timeoutError` is the Python builtin raised by
`wait_until_connected`. -/
inductive WSError where
  | authenticationError (msg : String)
  | networkError (msg : String)
  | serverError (msg : String)
  | timeoutError (msg : String)
deriving Repr, DecidableEq

/-- Python truthiness of `self.api_key`: `None` and the empty string are
falsy, any other string is truthy.  `connect`, `send_message`,
`mark_as_read` and `mark_all_as_read` all guard on `if not self.api_key`. -/
def keyTruthy : Option String → Bool
  | none => false
  | some s => !(s == "")

/-- Python `a or b` on optional strings, as used by
`self.api_key = api_key or os.getenv(TOKEN_BOWL_CHAT_API_KEY)`. -/
def pyOr (a b : Option String) : Option String :=
  if keyTruthy a then a else b

/-- The client state: the configured API key, whether `self._client`
holds a Centrifugo client handle, the bootstrap credentials stored in
`self._connection_info`, and the `self._connected` flag backing the
`connected` property. -/
structure WSState where
  apiKey : Option String
  hasClient : Bool
  connectionInfo : Option Credentials
  connected : Bool
deriving Repr, DecidableEq

/-- `TokenBowlWebSocket.__init__`: resolves the API key against the
environment variable, registers the callbacks (modelled elsewhere as
flags), and starts with no client handle, no credentials and
`_connected = False`. -/
def mkState (apiKeyArg envKey : Option String) : WSState :=
  { apiKey := pyOr apiKeyArg envKey
    hasClient := false
    connectionInfo := none
    connected := false }

/-- An exception raised by the httpx interaction inside `connect`:
either `raise_for_status` on a non-2xx response, a timeout, or a
connectivity failure. -/
inductive HttpFailure where
  | statusError (code : Nat)
  | timeout
  | connectFail
deriving Repr, DecidableEq

/-- Rendering of an `HttpFailure` used when the exception text is
interpolated into the wrapped error message. -/
def httpFailureMsg : HttpFailure → String
  | .statusError code => "HTTP status error " ++ toString code
  | .timeout => "timed out"
  | .connectFail => "connection failed"

/-- Outcome of the bootstrap `GET` request: either a validated JSON body
or an exception. -/
abbrev BootstrapOutcome := Except HttpFailure Credentials

/-- Result of one call to `connect`: the value returned or the exception
raised, the state of the client afterwards, and the number of outbound
HTTP requests that were issued during the call. -/
structure ConnectResult where
  result : Except WSError Unit
  state : WSState
  requests : Nat
deriving Repr

/-- `TokenBowlWebSocket.connect`.  Raises `AuthenticationError` when the
API key is missing, before any request is made.  Otherwise performs the
bootstrap request; on success stores the credentials, creates the
Centrifugo client (so `self._client` is set) and awaits the handshake,
whose success is the environment parameter `handshakeOk`.  Every
exception inside the `try` block is wrapped as `NetworkError`.  The
`_connected` flag is never written by `connect` itself: only the
connected event of the transport sets it. -/
def connect (s : WSState) (boot : BootstrapOutcome) (handshakeOk : Bool) :
    ConnectResult :=
  if keyTruthy s.apiKey = false then
    { result := .error (.authenticationError
        "API key is required for WebSocket connection")
      state := s
      requests := 0 }
  else
    match boot with
    | .error e =>
      { result := .error (.networkError
          ("Failed to connect to Centrifugo: " ++ httpFailureMsg e))
        state := s
        requests := 1 }
    | .ok creds =>
      let s1 : WSState :=
        { s with connectionInfo := some creds, hasClient := true }
      if handshakeOk then
        { result := .ok (), state := s1, requests := 1 }
      else
        { result := .error (.networkError
            "Failed to connect to Centrifugo: handshake failed")
          state := s1
          requests := 1 }

/-- Environment model of the per-channel subscribe call of the transport:
`none` means `await subscription.subscribe()` returns normally, `some e`
means it raises an exception described by `e`. -/
abbrev SubscribeEnv := String → Option String

/-- `TokenBowlWebSocket._subscribe_channel` for a single channel:
returns immediately when no client handle is held (no subscribe call is
attempted), otherwise issues exactly one subscribe call whose outcome
the environment decides.  The first component records whether a
subscribe call was attempted; the second is the exception raised out of
the method, if any (the method body contains no exception handler around
the subscribe call). -/
def subscribe_channel (hasClient : Bool) (env : SubscribeEnv)
    (channel : String) : Bool × Option String :=
  if hasClient = false then (false, none)
  else (true, env channel)

/-- The subscription loop inside the `on_connected` handler:
`for channel in self._connection_info[channels]: await
self._subscribe_channel(channel)`.  Returns the list of channels for
which a subscribe call was attempted, in order, and the exception that
escaped the loop, if any.  An exception raised by one iteration aborts
the loop. -/
def subscribeChannels (hasClient : Bool) (env : SubscribeEnv) :
    List String → List String × Option String
  | [] => ([], none)
  | c :: rest =>
    match subscribe_channel hasClient env c with
    | (att, some e) => (if att then [c] else [], some e)
    | (att, none) =>
      let rr := subscribeChannels hasClient env rest
      ((if att then [c] else []) ++ rr.1, rr.2)

/-- Observable callback activity of the client: invocation of the
connect callback, of the disconnect callback, and an attempted
per-channel subscribe call. -/
inductive WSAction where
  | cbConnect
  | cbDisconnect
  | subAttempt (channel : String)
deriving Repr, DecidableEq

/-- The `on_connected` handler registered on the Centrifugo client:
sets `self._connected = True`, invokes the connect callback when one is
registered, then runs the subscription loop over the channels of
`self._connection_info`.  (The handler is only ever installed after
`connect` has stored the credentials; when the state nonetheless holds
none, the channel list is read as empty.)  Returns the new state, the
ordered list of observable actions, and the exception escaping the
handler, if any. -/
def on_connected (s : WSState) (hasConnectCb : Bool) (env : SubscribeEnv) :
    WSState × List WSAction × Option String :=
  let s1 : WSState := { s with connected := true }
  let channels :=
    match s.connectionInfo with
    | some info => info.channels
    | none => []
  let r := subscribeChannels s.hasClient env channels
  (s1,
   (if hasConnectCb then [WSAction.cbConnect] else [])
     ++ r.1.map WSAction.subAttempt,
   r.2)

/-- The `on_disconnected` handler registered on the Centrifugo client:
sets `self._connected = False` and invokes the disconnect callback when
one is registered. -/
def on_disconnected (s : WSState) (hasDisconnectCb : Bool) :
    WSState × List WSAction :=
  ({ s with connected := false },
   if hasDisconnectCb then [WSAction.cbDisconnect] else [])

/-- `TokenBowlWebSocket.disconnect`: when a client handle is held,
`await self._client.disconnect()` tears down the transport — which
delivers the disconnected event (running `on_disconnected`) exactly when
the transport connection was up — and then the handle is dropped and
`self._connected` is reset.  When no handle is held the method does
nothing. -/
def disconnect (s : WSState) (hasDisconnectCb : Bool) :
    WSState × List WSAction :=
  if s.hasClient then
    if s.connected then
      let r := on_disconnected s hasDisconnectCb
      ({ r.1 with hasClient := false, connected := false }, r.2)
    else
      ({ s with hasClient := false, connected := false }, [])
  else (s, [])

/-- Outcome of one outbound POST made by the action-gateway methods:
a 2xx response carrying a count in its JSON body, a non-2xx response
(on which `raise_for_status` raises), or a network-level failure. -/
inductive PostOutcome where
  | success (count : Nat)
  | statusFailure (code : Nat)
  | networkFailure
deriving Repr, DecidableEq

/-- `TokenBowlWebSocket.mark_as_read`: raises `AuthenticationError`
without an API key; otherwise the whole request sits in a `try` block
whose `except` clause only logs, so the method returns normally
whatever the outcome.  The returned list is the error log emitted. -/
def mark_as_read (apiKey : Option String) (messageId : String)
    (outcome : PostOutcome) : Except WSError (List String) :=
  if keyTruthy apiKey = false then
    .error (.authenticationError "API key is required")
  else
    match outcome with
    | .success _ => .ok []
    | .statusFailure code =>
      .ok ["Failed to mark message " ++ messageId ++ " as read: HTTP "
            ++ toString code]
    | .networkFailure =>
      .ok ["Failed to mark message " ++ messageId ++ " as read: network"]

/-- `TokenBowlWebSocket.mark_all_as_read`: raises `AuthenticationError`
without an API key; otherwise returns the count from the response body
on success, and the zero count when the `except` clause catches any
request failure. -/
def mark_all_as_read (apiKey : Option String) (outcome : PostOutcome) :
    Except WSError Nat :=
  if keyTruthy apiKey = false then
    .error (.authenticationError "API key is required")
  else
    match outcome with
    | .success count => .ok count
    | .statusFailure _ => .ok 0
    | .networkFailure => .ok 0

/-- The polling loop of `wait_until_connected`, with time discretised in
tenths of a second (one tick per `asyncio.sleep(0.1)`).  `connectedAt t`
is the value of `self._connected` observed after `t` ticks; `timeout` is
the deadline in ticks.  The loop exits normally when the flag is seen
true, and raises the builtin `TimeoutError` once the elapsed time
exceeds the deadline.  The `fuel` argument only bounds the recursion
structurally; the loop always reaches a verdict within `timeout + 2`
iterations, so running it with that much fuel is exact (the fuel-out
base case is unreachable and is mapped to the same timeout error the
loop would reach). -/
def waitLoop (connectedAt : Nat → Bool) (timeout : Nat) :
    Nat → Nat → Except WSError Nat
  | 0, _ => .error (.timeoutError "Connection timeout")
  | fuel + 1, t =>
    if connectedAt t then .ok t
    else if timeout < t then .error (.timeoutError "Connection timeout")
    else waitLoop connectedAt timeout fuel (t + 1)

/-- `TokenBowlWebSocket.wait_until_connected`: run the polling loop from
elapsed time zero, with enough fuel for the loop to reach its own
verdict. -/
def wait_until_connected (connectedAt : Nat → Bool) (timeout : Nat) :
    Except WSError Nat :=
  waitLoop connectedAt timeout (timeout + 2) 0

/-- One inbound publication as seen by the `on_publication` handler:
`decoded` is the result of `MessageResponse(**data)` (`none` when the
payload is malformed and validation raises), and `callbackRaises` tells
whether the registered message callback raises on this message.  Messages
are identified by a numeric id. -/
structure Publication where
  decoded : Option Nat
  callbackRaises : Bool
deriving Repr, DecidableEq

/-- The body of the `try` block in `on_publication`: reads the data,
and when a message callback is registered, decodes the payload (which
may raise) and invokes the callback (which may raise).  Returns the
message delivered to the callback, if any. -/
def publicationBody (hasCb : Bool) (p : Publication) :
    Except String (Option Nat) :=
  if hasCb then
    match p.decoded with
    | none => .error "validation error"
    | some m =>
      if p.callbackRaises then .error "callback raised" else .ok (some m)
  else .ok none

/-- The `on_publication` handler attached to every subscription: the
body runs under `try`, and any exception is caught and logged.  Returns
the delivered message (if any) and the log lines emitted; the handler
itself never raises, which the total return type makes explicit. -/
def on_publication (hasCb : Bool) (p : Publication) :
    Option Nat × List String :=
  match publicationBody hasCb p with
  | .ok d => (d, [])
  | .error e => (none, ["Error handling publication: " ++ e])

/-- Dispatch of a stream of publications through `on_publication`,
collecting the messages delivered to the message callback, in order. -/
def processPublications (hasCb : Bool) : List Publication → List Nat
  | [] => []
  | p :: ps =>
    match (on_publication hasCb p).1 with
    | some m => m :: processPublications hasCb ps
    | none => processPublications hasCb ps

/-- The operations and transport events that drive the connection
lifecycle: a call to `connect` with its environment outcomes, delivery
of the connected event of the transport, delivery of an unsolicited
disconnected event, and a caller-initiated `disconnect`. -/
inductive WSOp where
  | connectCall (boot : BootstrapOutcome) (handshakeOk : Bool)
  | connectedEvent (env : SubscribeEnv)
  | disconnectedEvent
  | disconnectCall

/-- One lifecycle step.  Transport events are delivered by the live
client handle, so they occur only while one is held; `connect` never
touches the `_connected` flag itself; `disconnect` behaves as the
`disconnect` method.  Callbacks are taken as registered. -/
def wsStep (s : WSState) : WSOp → WSState × List WSAction
  | .connectCall boot handshakeOk => ((connect s boot handshakeOk).state, [])
  | .connectedEvent env =>
    if s.hasClient then
      let r := on_connected s true env
      (r.1, r.2.1)
    else (s, [])
  | .disconnectedEvent =>
    if s.hasClient then on_disconnected s true else (s, [])
  | .disconnectCall => disconnect s true

/-- Run a sequence of lifecycle operations from a state, collecting the
observable actions in order. -/
def runOps (s : WSState) : List WSOp → WSState × List WSAction
  | [] => (s, [])
  | op :: ops =>
    let r := wsStep s op
    let rr := runOps r.1 ops
    (rr.1, r.2 ++ rr.2)

/-- Whether an operation is the connected event of the transport. -/
def isConnEvent : WSOp → Bool
  | .connectedEvent _ => true
  | _ => false

/-- Whether an operation disconnects: a caller-initiated `disconnect` or
a transport-notified disconnected event. -/
def isDropEvent : WSOp → Bool
  | .disconnectedEvent => true
  | .disconnectCall => true
  | _ => false

/-- Discriminators on the result of a fallible operation. -/
def isAuthError {α : Type} : Except WSError α → Bool
  | .error (.authenticationError _) => true
  | _ => false

/-- Whether the result is a raised `NetworkError`. -/
def isNetError {α : Type} : Except WSError α → Bool
  | .error (.networkError _) => true
  | _ => false

/-- Whether the result is a raised `ServerError`. -/
def isServerError {α : Type} : Except WSError α → Bool
  | .error (.serverError _) => true
  | _ => false

/-- Whether the operation returned normally (raised nothing). -/
def isOkRes {α : Type} : Except WSError α → Bool
  | .ok _ => true
  | .error _ => false

/-- A concrete client state holding a live handle and the two-channel
bootstrap credentials of the specification scenario. -/
def twoChannelState : WSState :=
  { apiKey := some "key"
    hasClient := true
    connectionInfo := some ⟨"wss://stream", "tok", ["room", "dm:alice"]⟩
    connected := false }

/-- A subscribe environment in which the subscribe call for the channel
room raises and every other subscribe call succeeds. -/
def roomFailEnv : SubscribeEnv :=
  fun c => if c == "room" then some "subscribe failed" else none

/-- A subscribe environment in which every subscribe call succeeds. -/
def allOkEnv : SubscribeEnv := fun _ => none

/-- A concrete lifecycle history: a successful `connect` followed by the
delivery of the connected event of the transport. -/
def connectThenEvent : List WSOp :=
  [WSOp.connectCall (.ok ⟨"wss://stream", "tok", ["room"]⟩) true,
   WSOp.connectedEvent allOkEnv]

/- ### Helper lemmas -/

/-- `connect` never writes the `_connected` flag. -/
theorem connect_preserves_connected (s : WSState) (boot : BootstrapOutcome)
    (handshakeOk : Bool) :
    (connect s boot handshakeOk).state.connected = s.connected := by
  unfold connect
  split
  · rfl
  · cases boot with
    | error e => rfl
    | ok creds =>
      dsimp only
      split <;> rfl

/-- `connect` never drops an existing client handle. -/
theorem connect_keeps_hasClient (s : WSState) (boot : BootstrapOutcome)
    (handshakeOk : Bool) (h : s.hasClient = true) :
    (connect s boot handshakeOk).state.hasClient = true := by
  unfold connect
  split
  · exact h
  · cases boot with
    | error e => exact h
    | ok creds =>
      dsimp only
      split <;> rfl

/-- When every subscribe call succeeds, the loop attempts every channel
in the listed order and no exception escapes. -/
theorem subscribeChannels_all_ok (env : SubscribeEnv) (l : List String)
    (h : ∀ c ∈ l, env c = none) :
    subscribeChannels true env l = (l, none) := by
  induction l with
  | nil => rfl
  | cons c rest ih =>
    have hc : env c = none := h c (by simp)
    have hr := ih (fun d hd => h d (by simp [hd]))
    simp [subscribeChannels, subscribe_channel, hc, hr]

/-- When the subscribe call for channel `c` raises after a run of
succeeding channels, the loop stops at `c`: exactly the preceding
channels and `c` itself are attempted, and the exception escapes. -/
theorem subscribeChannels_aborts (env : SubscribeEnv) (l1 : List String)
    (c : String) (l2 : List String) (e : String)
    (h1 : ∀ d ∈ l1, env d = none) (hc : env c = some e) :
    subscribeChannels true env (l1 ++ c :: l2) = (l1 ++ [c], some e) := by
  induction l1 with
  | nil => simp [subscribeChannels, subscribe_channel, hc]
  | cons d rest ih =>
    have hd : env d = none := h1 d (by simp)
    have hr := ih (fun x hx => h1 x (by simp [hx]))
    simp [subscribeChannels, subscribe_channel, hd, hr]

/- ### Claim C5 -/

/-- C5: `connect()` called without a truthy API key raises
`AuthenticationError` synchronously and issues zero outbound HTTP
requests, whatever the environment would have answered. -/
theorem connect_no_key_fails_fast (s : WSState) (boot : BootstrapOutcome)
    (handshakeOk : Bool) (h : keyTruthy s.apiKey = false) :
    isAuthError (connect s boot handshakeOk).result = true ∧
    (connect s boot handshakeOk).requests = 0 := by
  simp [connect, h, isAuthError]

/-- Witness for C5 at the state built with no explicit key and no
environment key. -/
theorem connect_no_key_fails_fast_witness :
    isAuthError (connect (mkState none none) (.ok ⟨"u", "t", []⟩) true).result
      = true ∧
    (connect (mkState none none) (.ok ⟨"u", "t", []⟩) true).requests = 0 :=
  connect_no_key_fails_fast (mkState none none) (.ok ⟨"u", "t", []⟩) true
    (by decide)

/- ### Claim C2 -/

/-- C2 counterexample: with a configured key, a bootstrap response of
status 401 makes `connect` raise `NetworkError`, not
`AuthenticationError`, and a status 503 makes it raise `NetworkError`,
not `ServerError`. -/
theorem bootstrap_status_not_mapped_cex :
    isNetError (connect (mkState (some "key") none)
      (.error (.statusError 401)) true).result = true ∧
    isAuthError (connect (mkState (some "key") none)
      (.error (.statusError 401)) true).result = false ∧
    isNetError (connect (mkState (some "key") none)
      (.error (.statusError 503)) true).result = true ∧
    isServerError (connect (mkState (some "key") none)
      (.error (.statusError 503)) true).result = false := by
  decide

/-- C2 corrected: with a configured key, every bootstrap request
failure — a rejected key (401), a 5xx response, a timeout or a
connectivity failure — is wrapped and raised as `NetworkError`. -/
theorem bootstrap_failure_wrapped_network (s : WSState) (f : HttpFailure)
    (handshakeOk : Bool) (h : keyTruthy s.apiKey = true) :
    isNetError (connect s (.error f) handshakeOk).result = true := by
  simp [connect, h, isNetError]

/-- Witness for the corrected C2 on a timeout failure. -/
theorem bootstrap_failure_wrapped_network_witness :
    isNetError (connect (mkState (some "key") none)
      (.error .timeout) true).result = true :=
  bootstrap_failure_wrapped_network (mkState (some "key") none) .timeout true
    (by decide)

/- ### Claim C4 -/

/-- C4: when a key is configured and the client starts disconnected,
any exception raised during the `connect` sequence surfaces as
`NetworkError` and the `connected` property is still false afterwards:
no partially connected state is exposed. -/
theorem connect_error_atomic (s : WSState) (boot : BootstrapOutcome)
    (handshakeOk : Bool) (e : WSError)
    (hkey : keyTruthy s.apiKey = true)
    (hdisc : s.connected = false)
    (herr : (connect s boot handshakeOk).result = .error e) :
    isNetError (connect s boot handshakeOk).result = true ∧
    (connect s boot handshakeOk).state.connected = false := by
  constructor
  · unfold connect at herr ⊢
    simp only [hkey, Bool.true_eq_false, if_false] at herr ⊢
    cases boot with
    | error f => simp [isNetError]
    | ok creds =>
      cases handshakeOk with
      | true => simp at herr
      | false => simp [isNetError]
  · rw [connect_preserves_connected]
    exact hdisc

/-- Witness for C4 on a handshake failure. -/
theorem connect_error_atomic_witness :
    isNetError (connect (mkState (some "key") none)
      (.ok ⟨"u", "t", ["room"]⟩) false).result = true ∧
    (connect (mkState (some "key") none)
      (.ok ⟨"u", "t", ["room"]⟩) false).state.connected = false :=
  connect_error_atomic (mkState (some "key") none) (.ok ⟨"u", "t", ["room"]⟩)
    false (.networkError "Failed to connect to Centrifugo: handshake failed")
    (by decide) (by decide) (by rfl)

/- ### Claim C7 -/

/-- C7: with a configured key, `mark_all_as_read` never raises: every
request failure yields the zero count, and a successful request yields
the count from the server response. -/
theorem mark_all_as_read_never_raises (k : Option String)
    (outcome : PostOutcome) (hk : keyTruthy k = true) :
    isOkRes (mark_all_as_read k outcome) = true ∧
    (∀ code, outcome = .statusFailure code →
      mark_all_as_read k outcome = .ok 0) ∧
    (outcome = .networkFailure → mark_all_as_read k outcome = .ok 0) ∧
    (∀ c, outcome = .success c → mark_all_as_read k outcome = .ok c) := by
  refine ⟨?_, ?_, ?_, ?_⟩ <;>
    cases outcome <;>
      simp [mark_all_as_read, hk, isOkRes]

/-- Witness for C7 on a simulated 500 response. -/
theorem mark_all_as_read_never_raises_witness :
    isOkRes (mark_all_as_read (some "key") (.statusFailure 500)) = true ∧
    (∀ code, PostOutcome.statusFailure 500 = .statusFailure code →
      mark_all_as_read (some "key") (.statusFailure 500) = .ok 0) ∧
    (PostOutcome.statusFailure 500 = .networkFailure →
      mark_all_as_read (some "key") (.statusFailure 500) = .ok 0) ∧
    (∀ c, PostOutcome.statusFailure 500 = .success c →
      mark_all_as_read (some "key") (.statusFailure 500) = .ok c) :=
  mark_all_as_read_never_raises (some "key") (.statusFailure 500) (by decide)

/- ### Claim C9 -/

/-- C9: `mark_as_read` raises `AuthenticationError` without a truthy
key, and with one it returns normally on every request outcome, only
logging failures. -/
theorem mark_as_read_fire_and_forget (k : Option String) (mid : String)
    (outcome : PostOutcome) :
    (keyTruthy k = false → isAuthError (mark_as_read k mid outcome) = true) ∧
    (keyTruthy k = true → isOkRes (mark_as_read k mid outcome) = true) := by
  constructor
  · intro h
    simp [mark_as_read, h, isAuthError]
  · intro h
    cases outcome <;> simp [mark_as_read, h, isOkRes]

/-- Witness for C9 on a network failure with and without a key. -/
theorem mark_as_read_fire_and_forget_witness :
    isAuthError (mark_as_read none "m1" .networkFailure) = true ∧
    isOkRes (mark_as_read (some "key") "m1" .networkFailure) = true :=
  ⟨(mark_as_read_fire_and_forget none "m1" .networkFailure).1 (by decide),
   (mark_as_read_fire_and_forget (some "key") "m1" .networkFailure).2
     (by decide)⟩

/- ### Claim C6 -/

/-- C6: a failing publication — one whose decode raises, or one on
which the message callback itself raises — is caught inside the
dispatch handler: the handler delivers nothing, emits exactly one log
line and raises nothing, and the failure does not prevent a subsequent
well-formed publication from being decoded and delivered to the
message callback. -/
theorem malformed_publication_contained (p q : Publication)
    (ps : List Publication) (m : Nat)
    (hbad : p.decoded = none ∨ p.callbackRaises = true)
    (hq : q.decoded = some m) (hqc : q.callbackRaises = false) :
    (on_publication true p).1 = none ∧
    (on_publication true p).2.length = 1 ∧
    processPublications true (p :: q :: ps) =
      m :: processPublications true ps := by
  have hb : ∃ e, publicationBody true p = .error e := by
    rcases hbad with hd | hc
    · exact ⟨"validation error", by simp [publicationBody, hd]⟩
    · cases hdec : p.decoded with
      | none => exact ⟨"validation error", by simp [publicationBody, hdec]⟩
      | some k =>
        exact ⟨"callback raised", by simp [publicationBody, hdec, hc]⟩
  obtain ⟨e, hb⟩ := hb
  have hg : publicationBody true q = .ok (some m) := by
    simp [publicationBody, hq, hqc]
  refine ⟨?_, ?_, ?_⟩ <;>
    simp [processPublications, on_publication, hb, hg]

/-- Witness for C6 in both failure modes: a publication that fails to
decode and a publication whose callback raises, each followed by the
well-formed message 7, which is still delivered. -/
theorem malformed_publication_contained_witness :
    ((on_publication true ⟨none, false⟩).1 = none ∧
     (on_publication true ⟨none, false⟩).2.length = 1 ∧
     processPublications true [⟨none, false⟩, ⟨some 7, false⟩] =
       7 :: processPublications true []) ∧
    ((on_publication true ⟨some 3, true⟩).1 = none ∧
     (on_publication true ⟨some 3, true⟩).2.length = 1 ∧
     processPublications true [⟨some 3, true⟩, ⟨some 7, false⟩] =
       7 :: processPublications true []) :=
  ⟨malformed_publication_contained ⟨none, false⟩ ⟨some 7, false⟩ [] 7
     (Or.inl rfl) rfl rfl,
   malformed_publication_contained ⟨some 3, true⟩ ⟨some 7, false⟩ [] 7
     (Or.inr rfl) rfl rfl⟩

/- ### Claim C1 -/

/-- C1 counterexample: on the scenario channels room and dm:alice, when
the subscribe call for room raises, the `on_connected` handler attempts
only the room subscription — the dm:alice subscribe call is never
attempted, because the exception aborts the loop. -/
theorem subscribe_failure_aborts_loop_cex :
    (on_connected twoChannelState true roomFailEnv).2.1 =
      [WSAction.cbConnect, WSAction.subAttempt "room"] ∧
    WSAction.subAttempt "dm:alice" ∉
      (on_connected twoChannelState true roomFailEnv).2.1 ∧
    (on_connected twoChannelState true roomFailEnv).2.2 =
      some "subscribe failed" := by
  decide

/-- C1 corrected: on reaching Connected the handler sets the connected
flag, invokes the connect callback first and then issues subscribe
calls in the listed channel order; when every subscribe call succeeds
all channels are attempted, but an exception raised by a subscribe call
escapes the loop, so exactly the channels up to and including the first
failing one are attempted and the later ones are not. -/
theorem on_connected_subscribe_order (s : WSState) (env : SubscribeEnv)
    (creds : Credentials) (hinfo : s.connectionInfo = some creds)
    (hcli : s.hasClient = true) :
    (on_connected s true env).1.connected = true ∧
    (on_connected s true env).2.1 =
      WSAction.cbConnect ::
        (subscribeChannels true env creds.channels).1.map WSAction.subAttempt ∧
    ((∀ c ∈ creds.channels, env c = none) →
      (on_connected s true env).2.1 =
        WSAction.cbConnect :: creds.channels.map WSAction.subAttempt ∧
      (on_connected s true env).2.2 = none) ∧
    (∀ l1 c l2 e, creds.channels = l1 ++ c :: l2 →
      (∀ d ∈ l1, env d = none) → env c = some e →
      (on_connected s true env).2.1 =
        WSAction.cbConnect :: (l1 ++ [c]).map WSAction.subAttempt ∧
      (on_connected s true env).2.2 = some e) := by
  refine ⟨rfl, ?_, ?_, ?_⟩
  · simp [on_connected, hinfo, hcli]
  · intro hall
    have h := subscribeChannels_all_ok env creds.channels hall
    constructor <;> simp [on_connected, hinfo, hcli, h]
  · intro l1 c l2 e hsplit h1 hc
    have h := subscribeChannels_aborts env l1 c l2 e h1 hc
    constructor <;> simp [on_connected, hinfo, hcli, hsplit, h]

/-- Witness for the corrected C1: on the two-channel state, with every
subscribe call succeeding both channels are attempted after the connect
callback, and with the room subscribe raising only room is attempted. -/
theorem on_connected_subscribe_order_witness :
    (on_connected twoChannelState true allOkEnv).2.1 =
      WSAction.cbConnect ::
        ["room", "dm:alice"].map WSAction.subAttempt ∧
    (on_connected twoChannelState true roomFailEnv).2.1 =
      WSAction.cbConnect :: ([] ++ ["room"]).map WSAction.subAttempt :=
  ⟨((on_connected_subscribe_order twoChannelState allOkEnv
      ⟨"wss://stream", "tok", ["room", "dm:alice"]⟩ rfl rfl).2.2.1
      (fun _ _ => rfl)).1,
   ((on_connected_subscribe_order twoChannelState roomFailEnv
      ⟨"wss://stream", "tok", ["room", "dm:alice"]⟩ rfl rfl).2.2.2
      [] "room" ["dm:alice"] "subscribe failed" rfl
      (fun d hd => absurd hd (List.not_mem_nil d)) rfl).1⟩

/- ### Claim C8 -/

/-- The polling loop only returns normally at a tick where the
connected flag is observed true. -/
theorem waitLoop_ok_connected (connectedAt : Nat → Bool) (timeout : Nat) :
    ∀ fuel t r, waitLoop connectedAt timeout fuel t = .ok r →
      connectedAt r = true := by
  intro fuel
  induction fuel with
  | zero =>
    intro t r h
    simp [waitLoop] at h
  | succ n ih =>
    intro t r h
    rw [waitLoop] at h
    by_cases hc : connectedAt t
    · simp [hc] at h
      rw [← h]
      exact hc
    · simp [hc] at h
      by_cases ht : timeout < t
      · simp [ht] at h
      · simp [ht] at h
        exact ih (t + 1) r h

/-- When the connected flag is never observed true up to the deadline,
the polling loop raises the timeout error. -/
theorem waitLoop_times_out (connectedAt : Nat → Bool) (timeout : Nat) :
    ∀ fuel t, t ≤ timeout + 1 →
      (∀ u, u ≤ timeout + 1 → connectedAt u = false) →
      waitLoop connectedAt timeout fuel t =
        .error (.timeoutError "Connection timeout") := by
  intro fuel
  induction fuel with
  | zero =>
    intro t ht hall
    rfl
  | succ n ih =>
    intro t ht hall
    rw [waitLoop]
    have hc : connectedAt t = false := hall t ht
    simp only [hc, Bool.false_eq_true, if_false]
    by_cases htt : timeout < t
    · simp [htt]
    · simp only [htt, if_false]
      exact ih (t + 1) (by omega) hall

/-- C8: `wait_until_connected` returns only once the connected flag is
observed true, and on a client whose flag never becomes true up to the
deadline it raises `TimeoutError` rather than returning. -/
theorem wait_until_connected_correct (connectedAt : Nat → Bool)
    (timeout : Nat) :
    (∀ r, wait_until_connected connectedAt timeout = .ok r →
      connectedAt r = true) ∧
    ((∀ u, u ≤ timeout + 1 → connectedAt u = false) →
      wait_until_connected connectedAt timeout =
        .error (.timeoutError "Connection timeout")) := by
  constructor
  · intro r h
    exact waitLoop_ok_connected connectedAt timeout (timeout + 2) 0 r h
  · intro hall
    exact waitLoop_times_out connectedAt timeout (timeout + 2) 0
      (by omega) hall

/-- Witness for C8: a client that never connects times out with a 0.2
second deadline, and a client connected from the start returns at the
first poll. -/
theorem wait_until_connected_correct_witness :
    wait_until_connected (fun _ => false) 2 =
      .error (.timeoutError "Connection timeout") ∧
    (fun _ : Nat => true) 0 = true :=
  ⟨(wait_until_connected_correct (fun _ => false) 2).2 (fun _ _ => rfl),
   (wait_until_connected_correct (fun _ => true) 2).1 0 rfl⟩

/- ### Claim C3 -/

/-- C3: `disconnect` is idempotent — with no client handle it is a
no-op, a second call right after a first changes nothing and fires no
callback, across the two calls the disconnect callback fires at most
once, and it fires only when the client was actually connected (a
Connected to Disconnected transition occurred). -/
theorem disconnect_idempotent (s : WSState) (cb : Bool) :
    (s.hasClient = false → disconnect s cb = (s, [])) ∧
    disconnect (disconnect s cb).1 cb = ((disconnect s cb).1, []) ∧
    ((disconnect s cb).2 ++ (disconnect (disconnect s cb).1 cb).2).length ≤ 1 ∧
    ((disconnect s cb).2 ≠ [] → s.connected = true ∧ s.hasClient = true) := by
  refine ⟨fun h => by simp [disconnect, h], ?_, ?_, ?_⟩ <;>
    cases hcl : s.hasClient <;> cases hco : s.connected <;> cases cb <;>
      simp [disconnect, on_disconnected, hcl, hco]

/-- Witness for C3 from a connected state with a registered callback. -/
theorem disconnect_idempotent_witness :
    (({ twoChannelState with connected := true } : WSState).hasClient = false →
      disconnect { twoChannelState with connected := true } true =
        ({ twoChannelState with connected := true }, [])) ∧
    disconnect (disconnect { twoChannelState with connected := true } true).1
        true =
      ((disconnect { twoChannelState with connected := true } true).1, []) ∧
    ((disconnect { twoChannelState with connected := true } true).2 ++
      (disconnect (disconnect { twoChannelState with connected := true }
        true).1 true).2).length ≤ 1 ∧
    ((disconnect { twoChannelState with connected := true } true).2 ≠ [] →
      ({ twoChannelState with connected := true } : WSState).connected = true ∧
      ({ twoChannelState with connected := true } : WSState).hasClient
        = true) :=
  disconnect_idempotent { twoChannelState with connected := true } true

/- ### Claim C10 -/

/-- The lifecycle invariant: the connected flag is only ever raised
while a client handle is held. -/
abbrev wsInv (s : WSState) : Prop := s.connected = true → s.hasClient = true

/-- Every lifecycle step preserves the invariant. -/
theorem wsStep_inv (s : WSState) (op : WSOp) (h : wsInv s) :
    wsInv (wsStep s op).1 := by
  cases op with
  | connectCall boot hs =>
    intro hc
    have h1 : (connect s boot hs).state.connected = s.connected :=
      connect_preserves_connected s boot hs
    have h2 : s.connected = true := by rw [← h1]; exact hc
    exact connect_keeps_hasClient s boot hs (h h2)
  | connectedEvent env =>
    by_cases hcl : s.hasClient
    · intro _
      simp [wsStep, hcl, on_connected]
    · intro hc
      simp [wsStep, hcl] at hc
      exact absurd (h hc) hcl
  | disconnectedEvent =>
    by_cases hcl : s.hasClient
    · intro hc
      simp [wsStep, hcl, on_disconnected] at hc
    · intro hc
      simp [wsStep, hcl] at hc
      exact absurd (h hc) hcl
  | disconnectCall =>
    by_cases hcl : s.hasClient
    · by_cases hco : s.connected <;>
        intro hc <;>
          simp [wsStep, disconnect, on_disconnected, hcl, hco] at hc
    · intro hc
      simp [wsStep, disconnect, hcl] at hc
      exact absurd (h hc) hcl

/-- Unfolding of a run over a first operation. -/
theorem runOps_state_cons (s : WSState) (op : WSOp) (ops : List WSOp) :
    (runOps s (op :: ops)).1 = (runOps (wsStep s op).1 ops).1 := rfl

/-- Every run preserves the lifecycle invariant. -/
theorem runOps_inv (ops : List WSOp) :
    ∀ s, wsInv s → wsInv (runOps s ops).1 := by
  induction ops with
  | nil => intro s h; exact h
  | cons op ops ih =>
    intro s h
    rw [runOps_state_cons]
    exact ih _ (wsStep_inv s op h)

/-- The state after a concatenated run is the state of the second run
started from the state after the first. -/
theorem runOps_state_append (l1 l2 : List WSOp) :
    ∀ s, (runOps s (l1 ++ l2)).1 = (runOps (runOps s l1).1 l2).1 := by
  induction l1 with
  | nil => intro s; rfl
  | cons op ops ih =>
    intro s
    rw [List.cons_append, runOps_state_cons, runOps_state_cons, ih]

/-- The freshly constructed client satisfies the invariant. -/
theorem wsInv_mkState (a e : Option String) : wsInv (mkState a e) := by
  intro hx
  simp [mkState] at hx

/-- Under the invariant, a caller-initiated disconnect always leaves the
connected flag false. -/
theorem disconnect_clears_connected (s : WSState) (h : wsInv s) :
    (wsStep s WSOp.disconnectCall).1.connected = false := by
  by_cases hcl : s.hasClient
  · by_cases hco : s.connected <;>
      simp [wsStep, disconnect, on_disconnected, hcl, hco]
  · simp [wsStep, disconnect, hcl]
    cases hco : s.connected
    · rfl
    · exact absurd (h hco) hcl

/-- In any run from a fresh client that ends with the connected flag
true, some connected event of the transport occurred and no disconnect
of either kind occurred after it. -/
theorem runOps_connected_decomp (a e : Option String) (ops : List WSOp)
    (h : (runOps (mkState a e) ops).1.connected = true) :
    ∃ pre op post, ops = pre ++ op :: post ∧ isConnEvent op = true ∧
      ∀ o ∈ post, isDropEvent o = false := by
  induction ops using List.reverseRecOn with
  | nil => simp [runOps, mkState] at h
  | append_singleton l op ih =>
    rw [runOps_state_append] at h
    have hinv : wsInv (runOps (mkState a e) l).1 :=
      runOps_inv l (mkState a e) (wsInv_mkState a e)
    have h1 : (runOps (runOps (mkState a e) l).1 [op]).1 =
        (wsStep (runOps (mkState a e) l).1 op).1 := rfl
    rw [h1] at h
    cases op with
    | connectCall boot hs2 =>
      have h2 : (wsStep (runOps (mkState a e) l).1
          (WSOp.connectCall boot hs2)).1.connected =
          (runOps (mkState a e) l).1.connected :=
        connect_preserves_connected _ boot hs2
      rw [h2] at h
      obtain ⟨pre, o, post, hsplit, hco, hpost⟩ := ih h
      refine ⟨pre, o, post ++ [WSOp.connectCall boot hs2], ?_, hco, ?_⟩
      · rw [hsplit]
        simp
      · intro x hx
        rcases List.mem_append.mp hx with hx1 | hx2
        · exact hpost x hx1
        · simp at hx2
          subst hx2
          rfl
    | connectedEvent env =>
      exact ⟨l, WSOp.connectedEvent env, [], by simp, rfl, by simp⟩
    | disconnectedEvent =>
      by_cases hcl : (runOps (mkState a e) l).1.hasClient
      · simp [wsStep, hcl, on_disconnected] at h
      · simp [wsStep, hcl] at h
        exact absurd (hinv h) hcl
    | disconnectCall =>
      rw [disconnect_clears_connected _ hinv] at h
      exact absurd h (by simp)

/-- C10: the `connected` property is false at construction and after
every caller-initiated `disconnect`, and it is true after a run of
lifecycle operations only when a connected event of the transport
occurred with no subsequent disconnect of either kind. -/
theorem connected_only_via_transport (a e : Option String) (ops : List WSOp) :
    (mkState a e).connected = false ∧
    (∀ pre2 : List WSOp,
      (runOps (mkState a e)
        (pre2 ++ [WSOp.disconnectCall])).1.connected = false) ∧
    ((runOps (mkState a e) ops).1.connected = true →
      ∃ pre op post, ops = pre ++ op :: post ∧ isConnEvent op = true ∧
        ∀ o ∈ post, isDropEvent o = false) := by
  refine ⟨rfl, ?_, runOps_connected_decomp a e ops⟩
  intro pre2
  rw [runOps_state_append]
  have hinv : wsInv (runOps (mkState a e) pre2).1 :=
    runOps_inv pre2 (mkState a e) (wsInv_mkState a e)
  have h1 : (runOps (runOps (mkState a e) pre2).1 [WSOp.disconnectCall]).1 =
      (wsStep (runOps (mkState a e) pre2).1 WSOp.disconnectCall).1 := rfl
  rw [h1]
  exact disconnect_clears_connected _ hinv

/-- Witness for C10 on the concrete history of a successful connect
followed by the connected event. -/
theorem connected_only_via_transport_witness :
    (runOps (mkState (some "key") none) connectThenEvent).1.connected
      = true ∧
    (∃ pre op post, connectThenEvent = pre ++ op :: post ∧
      isConnEvent op = true ∧ ∀ o ∈ post, isDropEvent o = false) :=
  ⟨rfl,
   (connected_only_via_transport (some "key") none connectThenEvent).2.2 rfl⟩
